import Mathlib

/-!
Shallow embedding of the config-registry component of the `kubious` repository
(`src-tauri/src/api/application/state.rs`, module `app_state`), together with
theorems settling the specification claims about it.

Modelling conventions:
* The two `Mutex`-protected fields of `AppState` are embedded as plain fields;
  the sequential semantics of each method is translated statement by statement.
  The one place where lock behaviour is observable sequentially is
  `remove_config`, which re-locks the `current_config` mutex it already holds
  (via `set_current_config(None)`); `std::sync::Mutex` is not reentrant and its
  documentation guarantees the second `lock()` call does not return, so
  `remove_config` is embedded with codomain `Option AppState`, `none` standing
  for "the call never returns" (self-deadlock).
* `HashMap<String, KubeConfig>` is embedded as an association list with
  replace-on-insert semantics.
* `Duration` values are embedded as whole seconds (`Nat`).
* External collaborators (kubeconfig conversion, ambient inference, network
  client construction, path resolution, file I/O) are parameters of the
  operations that call them, each standing for the outcome the collaborator
  produced on that call.
-/

/-- Modelled from the spec: `KubeConfig` (the `ConnectionProfile` entity) lives
in the repository's `compat::kube_compat` module, which is not among the given
source files. Per spec §3 a profile carries a cluster API endpoint,
authentication material (opaque here), a default namespace, and an optional
connect-timeout override (seconds). `state.rs` itself accesses only the
`connect_timeout` field. -/
structure KubeConfig where
  endpoint : String
  auth : String
  default_namespace : String
  connect_timeout : Option Nat
deriving DecidableEq, Repr

/-- Modelled from the spec: the external client-library connection descriptor
(`kube::Config`); opaque to this core, it matters only through the two-way
conversion collaborator, so it is represented by the profile it converts to. -/
structure Config where
  asProfile : KubeConfig
deriving DecidableEq, Repr

/-- Modelled from the spec: the conversion collaborator
`toProfile(externalConnectionConfig) -> ConnectionProfile`
(`KubeConfig::from(config)` in the source). -/
def KubeConfig.fromConfig (c : Config) : KubeConfig := c.asProfile

/-- Modelled from the spec: the transient network client produced by the
client-construction collaborator; opaque, recorded with the profile it was
built from. -/
structure Client where
  builtFrom : KubeConfig
deriving DecidableEq, Repr

/-- Association-list lookup, embedding `HashMap::get`. -/
def lookupKey {α : Type} (m : List (String × α)) (k : String) : Option α :=
  match m with
  | [] => none
  | (k', v) :: rest => if k' = k then some v else lookupKey rest k

/-- Association-list insert-or-replace, embedding `HashMap::insert`. -/
def insertKey {α : Type} (m : List (String × α)) (k : String) (v : α) :
    List (String × α) :=
  match m with
  | [] => [(k, v)]
  | (k', v') :: rest =>
      if k' = k then (k, v) :: rest else (k', v') :: insertKey rest k v

/-- Association-list removal, embedding `HashMap::remove`. -/
def eraseKey {α : Type} (m : List (String × α)) (k : String) :
    List (String × α) :=
  match m with
  | [] => []
  | (k', v') :: rest =>
      if k' = k then rest else (k', v') :: eraseKey rest k

/-- The registry state (`AppState` in `state.rs`): the profile map and the
current selection, with the mutexes erased (see the module comment). -/
structure AppState where
  configs : List (String × KubeConfig)
  current_config : Option String
deriving DecidableEq, Repr

/-- `AppState::new`. -/
def AppState.new : AppState := ⟨[], none⟩

/-- `AppState::set_current_config`. -/
def set_current_config (value : Option String) (s : AppState) :
    Except String (Option KubeConfig) × AppState :=
  match value with
  | some name =>
      match lookupKey s.configs name with
      | some c => (Except.ok (some c), { s with current_config := some name })
      | none => (Except.error "Unknown config name", s)
  | none => (Except.ok none, { s with current_config := none })

/-- `AppState::get_current_config`. -/
def get_current_config (s : AppState) : Option (String × KubeConfig) :=
  match s.current_config with
  | some current =>
      match lookupKey s.configs current with
      | some c => some (current, c)
      | none => none
  | none => none

/-- `AppState::get_configs` (a full clone of the map). -/
def get_configs (s : AppState) : List (String × KubeConfig) := s.configs

/-- `AppState::select_config` (clone of the named profile). -/
def select_config (key : String) (s : AppState) : Option KubeConfig :=
  lookupKey s.configs key

/-- `AppState::put_config`: converts and inserts unconditionally, returning the
stored clone. -/
def put_config (key : String) (config : Config) (s : AppState) :
    KubeConfig × AppState :=
  let converted := KubeConfig.fromConfig config
  (converted, { s with configs := insertKey s.configs key converted })

/-- `AppState::put_compat_config`: inserts an already-converted profile. -/
def put_compat_config (key : String) (config : KubeConfig) (s : AppState) :
    KubeConfig × AppState :=
  (config, { s with configs := insertKey s.configs key config })

/-- `AppState::put_kubeconfig`. The awaited external conversion
`Config::from_custom_kubeconfig(config, &bound)` is a collaborator; `conv` is
the outcome it produced for the given kubeconfig document. -/
def put_kubeconfig (conv : Except Unit Config) (key : String) (s : AppState) :
    Except String KubeConfig × AppState :=
  match conv with
  | Except.ok conf =>
      let r := put_config key conf s
      (Except.ok r.1, r.2)
  | Except.error _ => (Except.error "Kubeconfig parsing failed", s)

/-- `AppState::remove_config`. The method locks `configs`, then locks
`current_config` and holds that guard; when the held selection equals `key` it
calls `set_current_config(None)`, which re-locks `current_config` on the same
thread — `std::sync::Mutex::lock` is guaranteed not to return in that case, so
the whole call never returns and no mutation below that point happens.
`none` models that non-return; otherwise the map entry is removed. -/
def remove_config (key : String) (s : AppState) : Option AppState :=
  match s.current_config with
  | some ck =>
      if ck = key then none
      else some { s with configs := eraseKey s.configs key }
  | none => some { s with configs := eraseKey s.configs key }

/-- `AppState::register_default`. The awaited external inference
`Config::infer()` is a collaborator; `inferred` is the outcome it produced. -/
def register_default (inferred : Except Unit Config) (s : AppState) :
    Option KubeConfig × AppState :=
  match inferred with
  | Except.ok conf =>
      let r := put_config "default" conf s
      (some (KubeConfig.fromConfig conf), r.2)
  | Except.error _ => (none, s)

/-- `AppState::client`. `tryClient` is the outcome function of the external
construction `Client::try_from(<KubeConfig as Into<Config>>::into(·))`;
`none` is a construction failure. The returned second component is the
registry state after the call. -/
def client (tryClient : KubeConfig → Option Client) (s : AppState) :
    Option Client × AppState :=
  match get_current_config s with
  | some cur =>
      let current := (cur.1, { cur.2 with connect_timeout := some 10 })
      (tryClient current.2, s)
  | none => (none, s)

/-- `AppState::client_for`: like `client`, but resolving by explicit key. -/
def client_for (tryClient : KubeConfig → Option Client) (key : String)
    (s : AppState) : Option Client × AppState :=
  match lookupKey s.configs key with
  | some sel =>
      let select := { sel with connect_timeout := some 10 }
      (tryClient select, s)
  | none => (none, s)

/-!
Persistence. `to_json`/`from_json` call `serde_json` on the derived
`Serialize`/`Deserialize` instances of `AppState`; the snapshot is a JSON
document with the struct's two fields, `configs` (an object mapping names to
profile objects) and `current_config` (a string or `null`). The textual
pretty-printing/parsing layer belongs to `serde_json`; the embedding works at
the level of the JSON document tree. -/

/-- JSON document trees, as far as the snapshot format needs them. An object
is its field list. -/
inductive Json where
  | null : Json
  | str : String → Json
  | num : Nat → Json
  | obj : List (String × Json) → Json
deriving Repr

/-- Modelled from the spec: the serde encoding of a `KubeConfig` profile
(`compat::kube_compat` derives `Serialize`/`Deserialize`; not among the given
source files). Per spec §6 the profile shape mirrors the §3 attributes. -/
def encodeKubeConfig (c : KubeConfig) : Json :=
  Json.obj
    [("endpoint", Json.str c.endpoint),
     ("auth", Json.str c.auth),
     ("default_namespace", Json.str c.default_namespace),
     ("connect_timeout",
        match c.connect_timeout with
        | some n => Json.num n
        | none => Json.null)]

/-- Modelled from the spec: the serde decoding of a `KubeConfig` profile,
inverse of `encodeKubeConfig`; fails on any structural violation. -/
def decodeKubeConfig (j : Json) : Except String KubeConfig :=
  match j with
  | Json.obj fields =>
      match lookupKey fields "endpoint" with
      | some (Json.str e) =>
          match lookupKey fields "auth" with
          | some (Json.str a) =>
              match lookupKey fields "default_namespace" with
              | some (Json.str ns) =>
                  match lookupKey fields "connect_timeout" with
                  | some Json.null => Except.ok ⟨e, a, ns, none⟩
                  | some (Json.num n) => Except.ok ⟨e, a, ns, some n⟩
                  | _ => Except.error "malformed snapshot: connect_timeout"
              | _ => Except.error "malformed snapshot: default_namespace"
          | _ => Except.error "malformed snapshot: auth"
      | _ => Except.error "malformed snapshot: endpoint"
  | _ => Except.error "malformed snapshot: profile"

/-- serde encoding of `Option<String>`: `null` or a string. -/
def encodeOptStr (v : Option String) : Json :=
  match v with
  | some s => Json.str s
  | none => Json.null

/-- serde decoding of `Option<String>`. -/
def decodeOptStr (j : Json) : Except String (Option String) :=
  match j with
  | Json.null => Except.ok none
  | Json.str s => Except.ok (some s)
  | _ => Except.error "malformed snapshot: current_config"

/-- serde decoding of the entries of the `configs` object into the profile
map. -/
def decodeEntries : List (String × Json) →
    Except String (List (String × KubeConfig))
  | [] => Except.ok []
  | (k, j) :: rest =>
      match decodeKubeConfig j with
      | Except.ok c =>
          match decodeEntries rest with
          | Except.ok cs => Except.ok ((k, c) :: cs)
          | Except.error e => Except.error e
      | Except.error e => Except.error e

/-- serde decoding of the `configs` field. -/
def decodeConfigs (j : Json) : Except String (List (String × KubeConfig)) :=
  match j with
  | Json.obj entries => decodeEntries entries
  | _ => Except.error "malformed snapshot: configs"

/-- `AppState::to_json` (serialize): the snapshot document of the whole state.
`serde_json::to_string_pretty` on this struct cannot fail sequentially (its
only error source is a poisoned mutex), so the embedding is total. -/
def to_json (s : AppState) : Json :=
  Json.obj
    [("configs",
        Json.obj (s.configs.map (fun p => (p.1, encodeKubeConfig p.2)))),
     ("current_config", encodeOptStr s.current_config)]

/-- `AppState::from_json` (deserialize): reconstructs a registry from a
snapshot document, failing on structural violations only. -/
def from_json (j : Json) : Except String AppState :=
  match j with
  | Json.obj fields =>
      match lookupKey fields "configs" with
      | some cj =>
          match decodeConfigs cj with
          | Except.ok cfgs =>
              match lookupKey fields "current_config" with
              | some curj =>
                  match decodeOptStr curj with
                  | Except.ok cur => Except.ok ⟨cfgs, cur⟩
                  | Except.error e => Except.error e
              | none => Except.error "malformed snapshot: missing current_config"
          | Except.error e => Except.error e
      | none => Except.error "malformed snapshot: missing configs"
  | _ => Except.error "malformed snapshot: not an object"

/-- How a call to `AppState::save_state` can end: normal return of `Ok`, normal
return of `Err`, or abnormal termination through an `unwrap` on `Err` (a Rust
panic). -/
inductive SaveOutcome where
  | ok : SaveOutcome
  | err : String → SaveOutcome
  | panicked : SaveOutcome
deriving DecidableEq, Repr

/-- Whether the outcome is a normally returned error. -/
def SaveOutcome.isErr : SaveOutcome → Bool
  | SaveOutcome.err _ => true
  | _ => false

/-- `AppState::save_state`. `pathOk` is the outcome of the external path
resolution `handle.path().parse("$APPCONFIG/config.json")`, `createOk` of
`File::create(path)`, `writeOk` of `config_file.write_all(...)`. The source
calls `.unwrap()` on the latter two (and on `to_json`, which cannot fail
sequentially), so their failures end in a panic, not an `Err`. -/
def save_state (pathOk createOk writeOk : Bool) (_s : AppState) : SaveOutcome :=
  if pathOk then
    if createOk then
      if writeOk then SaveOutcome.ok else SaveOutcome.panicked
    else SaveOutcome.panicked
  else SaveOutcome.err "Failed to write new current config to file."

/-!
Operation sequences, for the reachability invariant. Each constructor carries
the outcomes of the external collaborators its operation consults. -/

/-- One registry operation, as named in the spec: `setCurrent`, `put`,
`putFromKubeconfig`, `remove`, `registerDefault`. -/
inductive Op where
  | setCurrent : Option String → Op
  | put : String → Config → Op
  | putKube : String → Except Unit Config → Op
  | remove : String → Op
  | registerDefault : Except Unit Config → Op

/-- The state after one operation; `none` when the operation never returns
(the `remove_config` self-deadlock). -/
def applyOp (op : Op) (s : AppState) : Option AppState :=
  match op with
  | Op.setCurrent v => some (set_current_config v s).2
  | Op.put k c => some (put_config k c s).2
  | Op.putKube k conv => some (put_kubeconfig conv k s).2
  | Op.remove k => remove_config k s
  | Op.registerDefault inf => some (register_default inf s).2

/-- Running a sequence of operations from a state. -/
def run (ops : List Op) (s : AppState) : Option AppState :=
  match ops with
  | [] => some s
  | op :: rest =>
      match applyOp op s with
      | some s' => run rest s'
      | none => none

/-!
Helper lemmas about the association-list map operations, and sample data for
witnesses. -/

theorem lookupKey_insertKey {α : Type} (m : List (String × α)) (k n : String)
    (v : α) :
    lookupKey (insertKey m k v) n = if k = n then some v else lookupKey m n := by
  induction m with
  | nil => simp [insertKey, lookupKey]
  | cons hd tl ih =>
      obtain ⟨k', v'⟩ := hd
      by_cases hk : k' = k
      · subst hk
        simp only [insertKey, if_pos rfl, lookupKey]
        by_cases hn : k' = n <;> simp [hn]
      · simp only [insertKey, lookupKey, if_neg hk]
        by_cases hn : k' = n
        · subst hn
          have hne : ¬ k = k' := fun h => hk h.symm
          simp [lookupKey, hne]
        · simp [lookupKey, hn, ih]

theorem lookupKey_eraseKey_ne {α : Type} (m : List (String × α)) (k n : String)
    (h : n ≠ k) :
    lookupKey (eraseKey m k) n = lookupKey m n := by
  induction m with
  | nil => simp [eraseKey]
  | cons hd tl ih =>
      obtain ⟨k', v'⟩ := hd
      by_cases hk : k' = k
      · subst hk
        have hne : ¬ k' = n := fun hkn => h hkn.symm
        simp [eraseKey, lookupKey, hne]
      · by_cases hn : k' = n
        · subst hn
          simp [eraseKey, hk, lookupKey]
        · simp [eraseKey, hk, lookupKey, hn, ih]

/-- A sample profile, used by witnesses. -/
def kc0 : KubeConfig := ⟨"https://cluster.example:6443", "token-abc", "default", none⟩

/-- A second sample profile, with a stored timeout override. -/
def kc1 : KubeConfig := ⟨"https://other.example:6443", "token-xyz", "kube-system", some 99⟩

/-- A sample external connection descriptor. -/
def cfg0 : Config := ⟨kc0⟩

/-- A sample outcome function for the client-construction collaborator that
always succeeds, used by witnesses. -/
def tryC0 : KubeConfig → Option Client := fun c => some ⟨c⟩

theorem decodeKubeConfig_encodeKubeConfig (c : KubeConfig) :
    decodeKubeConfig (encodeKubeConfig c) = Except.ok c := by
  obtain ⟨e, a, ns, t⟩ := c
  cases t <;> rfl

theorem decodeEntries_encode (cfgs : List (String × KubeConfig)) :
    decodeEntries (cfgs.map fun p => (p.1, encodeKubeConfig p.2))
      = Except.ok cfgs := by
  induction cfgs with
  | nil => rfl
  | cons hd tl ih =>
      simp [decodeEntries, decodeKubeConfig_encodeKubeConfig, ih]

theorem decodeOptStr_encodeOptStr (v : Option String) :
    decodeOptStr (encodeOptStr v) = Except.ok v := by
  cases v <;> rfl

theorem from_to_json (s : AppState) : from_json (to_json s) = Except.ok s := by
  obtain ⟨cfgs, cur⟩ := s
  simp [to_json, from_json, lookupKey, decodeConfigs, decodeEntries_encode,
    decodeOptStr_encodeOptStr]

/-!
Claim theorems. -/

/-- C3: `setCurrent(Some(name))` succeeds iff `name` is a key of the profile
map; on success the selection becomes `name` and a clone of the stored profile
is returned; on failure it returns the unknown-profile error and leaves the
whole state (selection and map) unchanged. -/
theorem setCurrent_some_iff_present (s : AppState) (name : String) :
    ((∃ r, (set_current_config (some name) s).1 = Except.ok r)
        ↔ ∃ c, lookupKey s.configs name = some c)
  ∧ (∀ c, lookupKey s.configs name = some c →
      set_current_config (some name) s
        = (Except.ok (some c), { s with current_config := some name }))
  ∧ (lookupKey s.configs name = none →
      set_current_config (some name) s
        = (Except.error "Unknown config name", s)) := by
  refine ⟨?_, ?_, ?_⟩
  · cases h : lookupKey s.configs name <;> simp [set_current_config, h]
  · intro c hc
    simp [set_current_config, hc]
  · intro hn
    simp [set_current_config, hn]

/-- Witness for C3 at concrete inputs: selecting a present name succeeds and
commits the selection; selecting `"missing"` on the empty registry fails,
leaves the registry unchanged, and `getCurrent` stays `None`. -/
theorem setCurrent_some_iff_present_witness :
    set_current_config (some "a") ⟨[("a", kc0)], none⟩
      = (Except.ok (some kc0), ⟨[("a", kc0)], some "a"⟩)
  ∧ set_current_config (some "missing") AppState.new
      = (Except.error "Unknown config name", AppState.new)
  ∧ get_current_config AppState.new = none :=
  ⟨(setCurrent_some_iff_present ⟨[("a", kc0)], none⟩ "a").2.1 kc0 rfl,
   (setCurrent_some_iff_present AppState.new "missing").2.2 rfl,
   rfl⟩

/-- C8: `setCurrent(None)` always succeeds, returns `None`, clears the
selection, and a subsequent `getCurrent()` returns `None`, whatever the prior
state. -/
theorem setCurrent_none_clears (s : AppState) :
    set_current_config none s = (Except.ok none, { s with current_config := none })
  ∧ get_current_config (set_current_config none s).2 = none := by
  exact ⟨rfl, rfl⟩

/-- C2 evaluation: `remove_config` never returns when the removed key is the
current selection (the `set_current_config(None)` call re-locks the
`current_config` mutex the method is still holding, and `std::sync::Mutex` is
not reentrant), here shown at a concrete state; removal of a non-current key
and of an absent key completes as described. -/
theorem remove_config_self_deadlock :
    remove_config "a" ⟨[("a", kc0)], some "a"⟩ = none
  ∧ remove_config "b" ⟨[("a", kc0), ("b", kc1)], some "a"⟩
      = some ⟨[("a", kc0)], some "a"⟩
  ∧ remove_config "ghost" ⟨[("a", kc0)], none⟩ = some ⟨[("a", kc0)], none⟩ :=
  ⟨rfl, rfl, rfl⟩

/-- C5 counterexample: with the write path resolved but the write itself
failing, `save_state` ends in a panic (an `unwrap` on `Err`), not in a
returned error as the claim requires. -/
theorem save_state_panics_on_failed_write :
    save_state true true false AppState.new = SaveOutcome.panicked
  ∧ (save_state true true false AppState.new).isErr = false := by
  exact ⟨rfl, rfl⟩

/-- C5 amended: `save_state` returns an error exactly when the write path
cannot be resolved; when the path resolves it returns `Ok` if file creation
and the write both succeed, and terminates abnormally (panics through
`unwrap`) if either fails. -/
theorem save_state_error_cases (c w : Bool) (s : AppState) :
    save_state false c w s
      = SaveOutcome.err "Failed to write new current config to file."
  ∧ save_state true c w s
      = (if c && w then SaveOutcome.ok else SaveOutcome.panicked) := by
  refine ⟨rfl, ?_⟩
  cases c <;> cases w <;> rfl

/-- C6: `client()` returns `None` when the current selection does not resolve,
and otherwise hands the construction collaborator a clone of the selected
profile whose connect-timeout is exactly 10 seconds (overriding whatever the
profile stored); `client_for` does the same resolving by explicit name, with
`None` for an absent name. Construction failure (`tryClient` returning `none`)
therefore yields `None` as well. -/
theorem client_timeout_policy (tryClient : KubeConfig → Option Client)
    (s : AppState) :
    (get_current_config s = none → (client tryClient s).1 = none)
  ∧ (∀ n c, get_current_config s = some (n, c) →
      (client tryClient s).1 = tryClient { c with connect_timeout := some 10 })
  ∧ (∀ k, lookupKey s.configs k = none → (client_for tryClient k s).1 = none)
  ∧ (∀ k c, lookupKey s.configs k = some c →
      (client_for tryClient k s).1
        = tryClient { c with connect_timeout := some 10 }) := by
  refine ⟨?_, ?_, ?_, ?_⟩
  · intro h
    simp [client, h]
  · intro n c h
    simp [client, h]
  · intro k h
    simp [client_for, h]
  · intro k c h
    simp [client_for, h]

/-- Witness for C6: on a registry whose selected profile stores a 99-second
timeout, the profile handed to construction carries exactly 10 seconds, both
through `client` and through `client_for`. -/
theorem client_timeout_policy_witness :
    (client tryC0 ⟨[("a", kc1)], some "a"⟩).1
      = some ⟨⟨"https://other.example:6443", "token-xyz", "kube-system", some 10⟩⟩
  ∧ (client_for tryC0 "a" ⟨[("a", kc1)], none⟩).1
      = some ⟨⟨"https://other.example:6443", "token-xyz", "kube-system", some 10⟩⟩ :=
  ⟨(client_timeout_policy tryC0 ⟨[("a", kc1)], some "a"⟩).2.1 "a" kc1 rfl,
   (client_timeout_policy tryC0 ⟨[("a", kc1)], none⟩).2.2.2 "a" kc1 rfl⟩

/-- C10: `client` and `client_for` leave the registry unchanged — the timeout
override only touches a clone, so afterwards every stored profile and the
current selection are exactly as before. -/
theorem client_frame (tryClient : KubeConfig → Option Client) (s : AppState) :
    (client tryClient s).2 = s
  ∧ (∀ k, (client_for tryClient k s).2 = s)
  ∧ (∀ n, select_config n (client tryClient s).2 = select_config n s)
  ∧ (client tryClient s).2.current_config = s.current_config := by
  have hc : (client tryClient s).2 = s := by
    cases h : get_current_config s <;> simp [client, h]
  refine ⟨hc, ?_, ?_, ?_⟩
  · intro k
    cases h : lookupKey s.configs k <;> simp [client_for, h]
  · intro n
    rw [hc]
  · rw [hc]

/-- C7: when the kubeconfig conversion succeeds, `put_kubeconfig` stores the
converted profile under the name, returns a clone of what it stored, and
leaves the selection alone; when conversion fails it returns the parse error
and the registry (map and selection) is exactly as before. -/
theorem put_kubeconfig_spec (conv : Except Unit Config) (key : String)
    (s : AppState) :
    (∀ conf, conv = Except.ok conf →
        put_kubeconfig conv key s
          = (Except.ok (KubeConfig.fromConfig conf),
             { s with configs :=
                insertKey s.configs key (KubeConfig.fromConfig conf) })
      ∧ select_config key (put_kubeconfig conv key s).2
          = some (KubeConfig.fromConfig conf)
      ∧ (put_kubeconfig conv key s).2.current_config = s.current_config)
  ∧ (∀ e, conv = Except.error e →
      put_kubeconfig conv key s
        = (Except.error "Kubeconfig parsing failed", s)) := by
  constructor
  · rintro conf rfl
    refine ⟨rfl, ?_, rfl⟩
    simp [put_kubeconfig, put_config, select_config, lookupKey_insertKey]
  · rintro e rfl
    rfl

/-- Witness for C7: a successful conversion stores and returns the profile on
the empty registry; a failed conversion reports the parse error and leaves the
fresh registry untouched. -/
theorem put_kubeconfig_spec_witness :
    put_kubeconfig (Except.ok cfg0) "a" AppState.new
      = (Except.ok kc0, ⟨[("a", kc0)], none⟩)
  ∧ put_kubeconfig (Except.error ()) "a" AppState.new
      = (Except.error "Kubeconfig parsing failed", AppState.new) :=
  ⟨((put_kubeconfig_spec (Except.ok cfg0) "a" AppState.new).1 cfg0 rfl).1,
   (put_kubeconfig_spec (Except.error ()) "a" AppState.new).2 () rfl⟩

/-- C4: serializing any registry state and deserializing the snapshot
succeeds and reproduces a registry with identical profile map and identical
current selection. -/
theorem snapshot_roundtrip (s : AppState) :
    from_json (to_json s) = Except.ok s
  ∧ ∃ s', from_json (to_json s) = Except.ok s'
      ∧ get_configs s' = get_configs s
      ∧ s'.current_config = s.current_config :=
  ⟨from_to_json s, s, from_to_json s, rfl, rfl⟩

/-- C9: `from_json` checks structure only and does not re-validate invariant
I1: a well-formed snapshot whose `current_config` names a key absent from its
`configs` deserializes successfully into a registry reproducing that dangling
selection. -/
theorem from_json_no_i1_validation (cfgs : List (String × KubeConfig))
    (cur : String) (h : lookupKey cfgs cur = none) :
    from_json (to_json ⟨cfgs, some cur⟩) = Except.ok ⟨cfgs, some cur⟩
  ∧ (⟨cfgs, some cur⟩ : AppState).current_config = some cur
  ∧ select_config cur ⟨cfgs, some cur⟩ = none :=
  ⟨from_to_json ⟨cfgs, some cur⟩, rfl, h⟩

/-- Witness for C9: the snapshot of a registry holding only `"b"` but
selecting `"ghost"` deserializes successfully, dangling selection and all. -/
theorem from_json_no_i1_validation_witness :
    from_json (to_json ⟨[("b", kc0)], some "ghost"⟩)
      = Except.ok ⟨[("b", kc0)], some "ghost"⟩
  ∧ (⟨[("b", kc0)], some "ghost"⟩ : AppState).current_config = some "ghost"
  ∧ select_config "ghost" ⟨[("b", kc0)], some "ghost"⟩ = none :=
  from_json_no_i1_validation [("b", kc0)] "ghost" rfl

/-- Invariant I1: a `Some` selection always names a key of the profile map. -/
def SelectionValid (s : AppState) : Prop :=
  ∀ n, s.current_config = some n → ∃ c, select_config n s = some c

theorem selectionValid_new : SelectionValid AppState.new := by
  intro n hn
  cases hn

theorem applyOp_preserves_selectionValid (op : Op) (s s' : AppState)
    (hs : SelectionValid s) (h : applyOp op s = some s') :
    SelectionValid s' := by
  cases op with
  | setCurrent v =>
      cases v with
      | none =>
          simp only [applyOp, set_current_config, Option.some.injEq] at h
          subst h
          intro n hn
          cases hn
      | some name =>
          simp only [applyOp] at h
          cases hl : lookupKey s.configs name with
          | some c =>
              simp only [set_current_config, hl, Option.some.injEq] at h
              subst h
              intro n hn
              simp only [Option.some.injEq] at hn
              subst hn
              exact ⟨c, hl⟩
          | none =>
              simp only [set_current_config, hl, Option.some.injEq] at h
              subst h
              exact hs
  | put k c =>
      simp only [applyOp, put_config, Option.some.injEq] at h
      subst h
      intro n hn
      obtain ⟨c0, hc0⟩ := hs n hn
      simp only [select_config] at hc0 ⊢
      rw [lookupKey_insertKey]
      by_cases hk : k = n
      · simp [hk]
      · simp [hk, hc0]
  | putKube k conv =>
      cases conv with
      | ok conf =>
          simp only [applyOp, put_kubeconfig, put_config, Option.some.injEq] at h
          subst h
          intro n hn
          obtain ⟨c0, hc0⟩ := hs n hn
          simp only [select_config] at hc0 ⊢
          rw [lookupKey_insertKey]
          by_cases hk : k = n
          · simp [hk]
          · simp [hk, hc0]
      | error e =>
          simp only [applyOp, put_kubeconfig, Option.some.injEq] at h
          subst h
          exact hs
  | remove k =>
      simp only [applyOp, remove_config] at h
      cases hcur : s.current_config with
      | none =>
          rw [hcur] at h
          simp only [Option.some.injEq] at h
          subst h
          intro n hn
          cases hn
      | some ck =>
          rw [hcur] at h
          by_cases hk : ck = k
          · simp [hk] at h
          · simp only [if_neg hk, Option.some.injEq] at h
            subst h
            intro n hn
            simp only [Option.some.injEq] at hn
            subst hn
            obtain ⟨c0, hc0⟩ := hs ck hcur
            refine ⟨c0, ?_⟩
            simp only [select_config] at hc0 ⊢
            rw [lookupKey_eraseKey_ne _ _ _ hk]
            exact hc0
  | registerDefault inf =>
      cases inf with
      | ok conf =>
          simp only [applyOp, register_default, put_config, Option.some.injEq] at h
          subst h
          intro n hn
          obtain ⟨c0, hc0⟩ := hs n hn
          simp only [select_config] at hc0 ⊢
          rw [lookupKey_insertKey]
          by_cases hk : "default" = n
          · simp [hk]
          · simp [hk, hc0]
      | error e =>
          simp only [applyOp, register_default, Option.some.injEq] at h
          subst h
          exact hs

theorem run_preserves_selectionValid (ops : List Op) (s s' : AppState)
    (hs : SelectionValid s) (h : run ops s = some s') :
    SelectionValid s' := by
  induction ops generalizing s with
  | nil =>
      simp only [run, Option.some.injEq] at h
      subst h
      exact hs
  | cons op rest ih =>
      simp only [run] at h
      cases ha : applyOp op s with
      | none => rw [ha] at h; cases h
      | some s1 =>
          rw [ha] at h
          exact ih s1 (applyOp_preserves_selectionValid op s s1 hs ha) h

/-- In any state, a `Some` answer from `get_current_config` resolves through
`select_config` (the accessor itself checks the map). -/
theorem get_current_resolves (s : AppState) (n : String) (p : KubeConfig)
    (h : get_current_config s = some (n, p)) : select_config n s = some p := by
  unfold get_current_config at h
  cases hcur : s.current_config with
  | none => simp [hcur] at h
  | some cur =>
      simp only [hcur] at h
      cases hl : lookupKey s.configs cur with
      | none => simp [hl] at h
      | some c =>
          simp only [hl, Option.some.injEq, Prod.mk.injEq] at h
          obtain ⟨h1, h2⟩ := h
          subst h1
          subst h2
          exact hl

/-- C1: in every state reachable from the fresh registry by a (completed)
sequence of `setCurrent`, `put`, `putFromKubeconfig`, `remove`, and
`registerDefault` operations, a `Some` current selection always names a key of
the profile map, and a `Some` answer from `getCurrent` resolves through
`get` — no dangling selection. -/
theorem reachable_selection_valid (ops : List Op) (s : AppState)
    (h : run ops AppState.new = some s) :
    (∀ n, s.current_config = some n → ∃ c, select_config n s = some c)
  ∧ (∀ n p, get_current_config s = some (n, p) → select_config n s = some p) :=
  ⟨run_preserves_selectionValid ops AppState.new s selectionValid_new h,
   fun n p hp => get_current_resolves s n p hp⟩

/-- Witness for C1: after `put("a", ·)` then `setCurrent(Some "a")` from the
fresh registry, the selected name `"a"` is a key of the map. -/
theorem reachable_selection_valid_witness :
    ∃ c, select_config "a" ⟨[("a", kc0)], some "a"⟩ = some c :=
  (reachable_selection_valid [Op.put "a" cfg0, Op.setCurrent (some "a")]
      ⟨[("a", kc0)], some "a"⟩ rfl).1 "a" rfl
